import Mathlib

/-!
Verification of the ledger and stock consistency logic of the
SystemInventory application (server/routes.ts), over a shallow embedding of
the mock in-memory route handlers.  Monetary amounts and stock quantities
are modelled as integers; record stores are association lists mirroring the
module-level arrays of the source.
-/

set_option autoImplicit false

namespace SysInv

/-- A product record (server data model): id and cost price are the only
fields the posting logic reads. -/
structure Product where
  id : Nat
  costPrice : Int
deriving Repr, DecidableEq

/-- A warehouse record: only the id is read by the posting logic. -/
structure Warehouse where
  id : Nat
deriving Repr, DecidableEq

/-- A StockLevel row, keyed by (productId, warehouseId). -/
structure InvRecord where
  productId : Nat
  warehouseId : Nat
  quantity : Int
deriving Repr, DecidableEq

/-- A stock movement record (inventoryTransactions row): the quantity field
holds whatever the caller passes, delta or absolute. -/
structure InvMove where
  productId : Nat
  warehouseId : Nat
  quantity : Int
  kind : String
deriving Repr, DecidableEq

/-- An account record: type is the literal string tag of the source
("customer", "supplier", ...). -/
structure Account where
  id : Nat
  type : String
  currentBalance : Int
deriving Repr, DecidableEq

/-- A monetary transaction record (journal or cash entry). -/
structure Tx where
  type : String
  accountId : Nat
  amount : Int
  isDebit : Bool
  reference : List Char
deriving Repr, DecidableEq

/-- An invoice detail line: productId, quantity, unitPrice, lineTotal. -/
structure InvoiceDetail where
  productId : Nat
  quantity : Int
  unitPrice : Int
  lineTotal : Int
deriving Repr, DecidableEq

/-- An invoice header.  The invoice number is a character list; the
`INV-` / `PUR-` naming convention is the sole type discriminator.
`accountId = 0` models a missing (falsy) account id. -/
structure Invoice where
  id : Nat
  invoiceNumber : List Char
  accountId : Nat
  warehouseId : Nat
  status : String
  total : Int
deriving Repr, DecidableEq

/-- The whole mutable in-memory state of the mock backend: the module-level
arrays of mockdb.ts plus the mockInvoices array of routes.ts. -/
structure MockState where
  products : List Product
  warehouses : List Warehouse
  inventory : List InvRecord
  invMoves : List InvMove
  accounts : List Account
  transactions : List Tx
  invoices : List Invoice
deriving Repr, DecidableEq

/-- Error kinds of the ledger layer (spec section 7). -/
inductive LedgerErr where
  | notFoundError
  | invalidAmountError
deriving Repr, DecidableEq

/-- JavaScript `s.startsWith(p)` on character lists: `strStartsWith s p`
is true when `p` is an initial segment of `s`. -/
def strStartsWith : List Char → List Char → Bool
  | _, [] => true
  | [], _ :: _ => false
  | c :: s, d :: p => c == d && strStartsWith s p

/-- The purchase invoice-number marker "PUR-". -/
def purCode : List Char := ['P', 'U', 'R', '-']

/-- The sales invoice-number marker "INV-". -/
def invCode : List Char := ['I', 'N', 'V', '-']

/-- First product with the given id (mockDB.getProduct). -/
def lookupProduct : List Product → Nat → Option Product
  | [], _ => none
  | p :: rest, pid => if p.id = pid then some p else lookupProduct rest pid

/-- First warehouse with the given id. -/
def lookupWarehouse : List Warehouse → Nat → Option Warehouse
  | [], _ => none
  | w :: rest, wid => if w.id = wid then some w else lookupWarehouse rest wid

/-- First stock record for (productId, warehouseId). -/
def lookupLevel : List InvRecord → Nat → Nat → Option InvRecord
  | [], _, _ => none
  | r :: rest, pid, wid =>
    if r.productId = pid ∧ r.warehouseId = wid then some r else lookupLevel rest pid wid

/-- First account with the given id (mockDB.getAccount). -/
def lookupAccount : List Account → Nat → Option Account
  | [], _ => none
  | a :: rest, aid => if a.id = aid then some a else lookupAccount rest aid

/-- First invoice with the given id. -/
def findInvoice : List Invoice → Nat → Option Invoice
  | [], _ => none
  | i :: rest, iid => if i.id = iid then some i else findInvoice rest iid

/-- Update the first stock record matching (pid, wid): set quantity to `q`
when `isAbs` is true, otherwise add `q`; create the record when absent
(creation at zero plus delta, or directly at the absolute value). -/
def setLevel : List InvRecord → Nat → Nat → Int → Bool → List InvRecord
  | [], pid, wid, q, _ => [⟨pid, wid, q⟩]
  | r :: rest, pid, wid, q, isAbs =>
    if r.productId = pid ∧ r.warehouseId = wid then
      { r with quantity := if isAbs then q else r.quantity + q } :: rest
    else r :: setLevel rest pid wid q isAbs

/-- Set the running balance of the first account with the given id. -/
def setBalance : List Account → Nat → Int → List Account
  | [], _, _ => []
  | a :: rest, aid, b =>
    if a.id = aid then { a with currentBalance := b } :: rest
    else a :: setBalance rest aid b

/-- Set the status of the first invoice with the given id. -/
def setStatus : List Invoice → Nat → String → List Invoice
  | [], _, _ => []
  | i :: rest, iid, s =>
    if i.id = iid then { i with status := s } :: rest else i :: setStatus rest iid s

/-- Quantity of the first stock record for (pid, wid) in a row list,
defaulting to 0 when no record exists. -/
def qtyOf (l : List InvRecord) (pid wid : Nat) : Int :=
  match lookupLevel l pid wid with
  | some r => r.quantity
  | none => 0

/-- Read accessor of spec section 6: quantity of the first stock record for
(pid, wid), defaulting to 0 when no record exists. -/
def getStockLevel (st : MockState) (pid wid : Nat) : Int :=
  qtyOf st.inventory pid wid

/-- Read accessor of spec section 6: running balance of the account,
defaulting to 0 when the account is unknown. -/
def getAccountBalance (st : MockState) (aid : Nat) : Int :=
  match lookupAccount st.accounts aid with
  | some a => a.currentBalance
  | none => 0

/-- Modelled from the spec: `mockDB.updateInventory` (mockdb.ts is not under
src/).  Per the Stock Ledger contract (spec 4.1, applyMovement/setAbsolute)
it fails with NotFoundError when the product or warehouse id is unknown,
and otherwise adjusts the StockLevel, creating it at zero if absent.
Internal movement logging is omitted: every claim reads either the levels
or the movement records that routes.ts itself appends. -/
def updateInventory (st : MockState) (pid wid : Nat) (q : Int) (isAbs : Bool) :
    Except LedgerErr MockState :=
  match lookupProduct st.products pid, lookupWarehouse st.warehouses wid with
  | some _, some _ => Except.ok { st with inventory := setLevel st.inventory pid wid q isAbs }
  | _, _ => Except.error LedgerErr.notFoundError

/-- Modelled from the spec: `mockDB.createInventoryTransaction` (mockdb.ts
is not under src/).  Appends one immutable StockMovement record
(spec section 3), exactly as passed by the route. -/
def createInventoryTransaction (st : MockState) (m : InvMove) : MockState :=
  { st with invMoves := st.invMoves ++ [m] }

/-- Modelled from the spec: `createMockTransaction` (mockdb.ts is not under
src/).  Appends one immutable Transaction record (spec section 3); amount
validation is performed by the calling routes in the source. -/
def createMockTransaction (st : MockState) (t : Tx) : MockState :=
  { st with transactions := st.transactions ++ [t] }

/-- Outcome of the invoice creation route (routes.ts POST /api/invoices,
mock branch): 201 with the stored invoice, or 500 when an exception from
the posting loop reaches the route-level catch. -/
inductive PostResult where
  | created (inv : Invoice)
  | serverError
deriving Repr, DecidableEq

/-- True exactly on the success outcome. -/
def PostResult.isOk : PostResult → Bool
  | PostResult.created _ => true
  | PostResult.serverError => false

/-- The per-line posting loop of routes.ts lines 1846 to 1868: for each
detail with truthy productId and quantity, look the product up, accumulate
cost of goods sold for sales, and apply the signed stock change for the
document warehouse.  A NotFoundError thrown by updateInventory aborts the
loop; the state mutated so far is kept (the route only catches and returns
500).  Returns (state, costOfGoodsSold, failed). -/
def applyDetails (isPurchase isSale : Bool) (wid : Nat) :
    MockState → Int → List InvoiceDetail → MockState × Int × Bool
  | st, cogs, [] => (st, cogs, false)
  | st, cogs, d :: ds =>
    if d.productId ≠ 0 ∧ d.quantity ≠ 0 then
      let product := lookupProduct st.products d.productId
      let quantityChange := if isPurchase then d.quantity else -d.quantity
      let cogs' :=
        if isSale then
          match product with
          | some p => cogs + p.costPrice * d.quantity
          | none => cogs
        else cogs
      match updateInventory st d.productId wid quantityChange false with
      | Except.error _ => (st, cogs', true)
      | Except.ok st' => applyDetails isPurchase isSale wid st' cogs' ds
    else applyDetails isPurchase isSale wid st cogs ds

/-- The two journal entries of a purchase posting (routes.ts 1877 to 1898):
debit the Inventory account (id 3) for the total, credit the supplier
account for the total. -/
def purchaseEntries (num : List Char) (accountId : Nat) (total : Int) : List Tx :=
  [⟨"journal", 3, total, true, num⟩,
   ⟨"journal", accountId, total, false, num⟩]

/-- The four journal entries of a sale posting (routes.ts 1908 to 1953):
debit the customer for the total, credit Sales Revenue (id 5) for the
total, debit COGS (id 6) for the cost of goods sold, credit Inventory
(id 3) for the cost of goods sold. -/
def saleEntries (num : List Char) (accountId : Nat) (total cogs : Int) : List Tx :=
  [⟨"journal", accountId, total, true, num⟩,
   ⟨"journal", 5, total, false, num⟩,
   ⟨"journal", 6, cogs, true, num⟩,
   ⟨"journal", 3, cogs, false, num⟩]

/-- The account-balance step of posting (routes.ts 1957 to 1981): when the
invoice carries a truthy accountId and the account exists, set its balance
to current minus total for a purchase, current plus total for a sale;
silently skip otherwise. -/
def applyBalanceUpdate (isPurchase : Bool) (accountId : Nat) (total : Int)
    (st : MockState) : MockState :=
  if accountId ≠ 0 then
    match lookupAccount st.accounts accountId with
    | some a =>
      let newBalance :=
        if isPurchase then a.currentBalance - total else a.currentBalance + total
      { st with accounts := setBalance st.accounts accountId newBalance }
    | none => st
  else st

/-- The posted-invoice side effects (routes.ts 1839 to 1983): inventory
loop, then journal entries, then the balance update, applied only when the
invoice number carries one of the two markers. -/
def runPosting (newInvoice : Invoice) (st1 : MockState) (ds : List InvoiceDetail) :
    MockState × PostResult :=
  let isPurchase := strStartsWith newInvoice.invoiceNumber purCode
  let isSale := strStartsWith newInvoice.invoiceNumber invCode
  if isPurchase || isSale then
    let res := applyDetails isPurchase isSale newInvoice.warehouseId st1 0 ds
    if res.2.2 = true then (res.1, PostResult.serverError)
    else
      let entries :=
        if isPurchase then
          purchaseEntries newInvoice.invoiceNumber newInvoice.accountId newInvoice.total
        else
          saleEntries newInvoice.invoiceNumber newInvoice.accountId newInvoice.total res.2.1
      let st3 := { res.1 with transactions := res.1.transactions ++ entries }
      (applyBalanceUpdate isPurchase newInvoice.accountId newInvoice.total st3,
       PostResult.created newInvoice)
  else (st1, PostResult.created newInvoice)

/-- The invoice creation route (routes.ts POST /api/invoices, mock branch,
lines 1810 to 1989): store the invoice (with a fresh id) first, then apply
the ledger side effects only when the status is posted and a details array
is present. -/
def postInvoice (st : MockState) (newId : Nat) (inv : Invoice)
    (details : Option (List InvoiceDetail)) : MockState × PostResult :=
  let newInvoice := { inv with id := newId }
  let st1 := { st with invoices := st.invoices ++ [newInvoice] }
  match details with
  | some ds =>
    if newInvoice.status = "posted" then runPosting newInvoice st1 ds
    else (st1, PostResult.created newInvoice)
  | none => (st1, PostResult.created newInvoice)

/-- Outcome of the cash-transaction route. -/
inductive TxResult where
  | created
  | badRequest
deriving Repr, DecidableEq

/-- The cash-transaction route (routes.ts POST /api/transactions, mock
branch, lines 1312 to 1411): after the route validations (non-empty type,
truthy account id, amount strictly positive, known type tag), append the
transaction and update the account balance by the fixed sign policy of
lines 1390 to 1404. -/
def postTransaction (st : MockState) (ttype : String) (accountId : Nat) (amount : Int) :
    MockState × TxResult :=
  if ttype = "" ∨ accountId = 0 ∨ amount = 0 then (st, TxResult.badRequest)
  else if amount ≤ 0 then (st, TxResult.badRequest)
  else if ¬(ttype = "credit" ∨ ttype = "debit" ∨ ttype = "journal") then
    (st, TxResult.badRequest)
  else
    let st1 := createMockTransaction st ⟨ttype, accountId, amount, false, []⟩
    match lookupAccount st1.accounts accountId with
    | some account =>
      let currentBalance := account.currentBalance
      let newBalance :=
        if ttype = "credit" then
          if account.type = "customer" then currentBalance - amount
          else if account.type = "supplier" then currentBalance + amount
          else currentBalance
        else if ttype = "debit" then
          if account.type = "customer" then currentBalance + amount
          else if account.type = "supplier" then currentBalance - amount
          else currentBalance
        else currentBalance
      ({ st1 with accounts := setBalance st1.accounts accountId newBalance },
       TxResult.created)
    | none => (st1, TxResult.created)

/-- Outcome of the inventory adjustment route. -/
inductive InvResult where
  | okResp
  | badRequest
  | serverError
deriving Repr, DecidableEq

/-- The mock branch of POST /api/inventory (routes.ts 1173 to 1223): a
count request sets the absolute quantity and then logs a movement carrying
the requested quantity itself; a relative request adds the quantity and
logs a movement carrying that quantity. -/
def postInventoryMock (st : MockState) (productId warehouseId : Nat) (quantity : Int)
    (isCount : Bool) : MockState × InvResult :=
  if productId = 0 ∨ warehouseId = 0 then (st, InvResult.badRequest)
  else if isCount then
    match updateInventory st productId warehouseId quantity true with
    | Except.error _ => (st, InvResult.serverError)
    | Except.ok st1 =>
      (createInventoryTransaction st1 ⟨productId, warehouseId, quantity, "adjustment"⟩,
       InvResult.okResp)
  else
    match updateInventory st productId warehouseId quantity false with
    | Except.error _ => (st, InvResult.serverError)
    | Except.ok st1 =>
      (createInventoryTransaction st1
        ⟨productId, warehouseId, quantity,
         if quantity > 0 then "adjustment" else "sale"⟩,
       InvResult.okResp)

/-- The real-database count branch of POST /api/inventory (routes.ts 1228
to 1289): when a record exists, set the exact quantity and log a movement
carrying quantity minus the previous quantity; when none exists, insert the
record and log a movement carrying the quantity (delta from zero). -/
def postInventoryCountReal (st : MockState) (productId warehouseId : Nat)
    (quantity : Int) : MockState × InvResult :=
  if productId = 0 ∨ warehouseId = 0 then (st, InvResult.badRequest)
  else
    match lookupLevel st.inventory productId warehouseId with
    | some existing =>
      let adjustmentAmount := quantity - existing.quantity
      let st1 := { st with inventory := setLevel st.inventory productId warehouseId quantity true }
      (createInventoryTransaction st1
        ⟨productId, warehouseId, adjustmentAmount, "adjustment"⟩, InvResult.okResp)
    | none =>
      let st1 := { st with inventory := st.inventory ++ [⟨productId, warehouseId, quantity⟩] }
      (createInventoryTransaction st1
        ⟨productId, warehouseId, quantity, "adjustment"⟩, InvResult.okResp)

/-- Outcome of the stock-level query route. -/
inductive StockLevelResp where
  | found (r : InvRecord)
  | notFoundResp
deriving Repr, DecidableEq

/-- The stock-level query route (routes.ts GET
/api/inventory/:productId/:warehouseId, lines 1142 to 1158): look the
record up (storage.getInventory, modelled as a plain lookup, which is what
the falsy check of the route presupposes) and answer 404 when it is absent. -/
def getInventoryRoute (st : MockState) (pid wid : Nat) : StockLevelResp :=
  match lookupLevel st.inventory pid wid with
  | some r => StockLevelResp.found r
  | none => StockLevelResp.notFoundResp

/-- Outcome of the invoice status route. -/
inductive PatchResult where
  | okResp (inv : Invoice)
  | badRequest
  | notFoundResp
deriving Repr, DecidableEq

/-- The invoice status route (routes.ts PATCH /api/invoices/:id/status,
lines 2220 to 2239): requires a truthy status, then delegates to
storage.updateInvoiceStatus.  Modelled from the spec: storage.ts is not
under src/; updateInvoiceStatus is a plain status setter returning nothing
when the invoice is missing (the 404 branch of the route), with no status-machine
check and no ledger access. -/
def patchInvoiceStatus (st : MockState) (iid : Nat) (status : String) :
    MockState × PatchResult :=
  if status = "" then (st, PatchResult.badRequest)
  else
    match findInvoice st.invoices iid with
    | none => (st, PatchResult.notFoundResp)
    | some i =>
      ({ st with invoices := setStatus st.invoices iid status },
       PatchResult.okResp { i with status := status })

/-- The sales filter of the invoice listing (routes.ts GET /api/invoices,
lines 1698 to 1707): keep the invoices whose number does not start with
"PUR-". -/
def listSalesFilter (invs : List Invoice) : List Invoice :=
  invs.filter (fun inv => !(strStartsWith inv.invoiceNumber purCode))

/-- The sales report filter (routes.ts GET /api/reports, lines 2851 to
2877): keep the invoices whose number starts with "INV-". -/
def reportSalesFilter (invs : List Invoice) : List Invoice :=
  invs.filter (fun inv => strStartsWith inv.invoiceNumber invCode)

/-- Net signed stock change the posting loop applies to product `pid` at
the document warehouse: sum over the lines with truthy productId and
quantity that mention `pid` of the quantity (purchase) or its negation
(sale). -/
def detailsDelta (isPurchase : Bool) (pid : Nat) : List InvoiceDetail → Int
  | [] => 0
  | d :: ds =>
    (if d.productId ≠ 0 ∧ d.quantity ≠ 0 ∧ d.productId = pid then
       (if isPurchase then d.quantity else -d.quantity)
     else 0) + detailsDelta isPurchase pid ds

/-- Cost of goods sold accumulated by the sale posting loop: cost price
times quantity over the lines with truthy productId and quantity whose
product exists. -/
def cogsSum (prods : List Product) : List InvoiceDetail → Int
  | [] => 0
  | d :: ds =>
    (if d.productId ≠ 0 ∧ d.quantity ≠ 0 then
       match lookupProduct prods d.productId with
       | some p => p.costPrice * d.quantity
       | none => 0
     else 0) + cogsSum prods ds

/-- Sum of the amounts of the debit entries of a transaction list. -/
def debitTotal : List Tx → Int
  | [] => 0
  | t :: ts => (if t.isDebit then t.amount else 0) + debitTotal ts

/-- Sum of the amounts of the credit entries of a transaction list. -/
def creditTotal : List Tx → Int
  | [] => 0
  | t :: ts => (if t.isDebit then 0 else t.amount) + creditTotal ts

/-- Sample state: product 1 (cost 5), warehouse 1, stock (1,1) at 10, and
customer account 60 at balance 0. -/
def sampleState : MockState :=
  ⟨[⟨1, 5⟩], [⟨1⟩], [⟨1, 1, 10⟩], [], [⟨60, "customer", 0⟩], [], []⟩

/-- Sample sale invoice INV-1 for customer 60 at warehouse 1, total 40. -/
def sampleSale : Invoice := ⟨0, ['I', 'N', 'V', '-', '1'], 60, 1, "posted", 40⟩

/-- Sample purchase invoice PUR-1 for supplier 50 at warehouse 1, total 50
(the spec section 8 purchase scenario). -/
def samplePurchase : Invoice := ⟨0, ['P', 'U', 'R', '-', '1'], 50, 1, "posted", 50⟩

/-- Sample state for the purchase scenario: product 7 (cost 5), warehouse
1, no stock records, supplier account 50 at balance 0. -/
def supplierState : MockState :=
  ⟨[⟨7, 5⟩], [⟨1⟩], [], [], [⟨50, "supplier", 0⟩], [], []⟩

/-- Sample detail lines whose second line references the unknown product
99: posting them fails after the first line was applied. -/
def mixedDetails : List InvoiceDetail := [⟨1, 2, 20, 40⟩, ⟨99, 3, 20, 60⟩]

/-- A single valid sale line: product 1, quantity 2. -/
def oneLine : List InvoiceDetail := [⟨1, 2, 20, 40⟩]

/-- Sample state for the count adjustment: product 1, warehouse 1, current
stock quantity 5. -/
def countState : MockState :=
  ⟨[⟨1, 5⟩], [⟨1⟩], [⟨1, 1, 5⟩], [], [], [], []⟩

/-- The empty mock state. -/
def emptyState : MockState := ⟨[], [], [], [], [], [], []⟩

/-- Sample state with customer account 60 and supplier account 50, both at
balance 100. -/
def twoAccountState : MockState :=
  ⟨[], [], [], [], [⟨60, "customer", 100⟩, ⟨50, "supplier", 100⟩], [], []⟩

/-- The state after successfully posting the sample sale INV-1 (one valid
line) on the sample state: used to exercise a second posting attempt. -/
def postedOnceState : MockState := (postInvoice sampleState 7 sampleSale (some oneLine)).1

theorem qtyOf_setLevel_rel (l : List InvRecord) (pid wid : Nat) (q : Int) (pid' : Nat) :
    qtyOf (setLevel l pid wid q false) pid' wid =
      qtyOf l pid' wid + (if pid' = pid then q else 0) := by
  induction l with
  | nil =>
    by_cases h : pid' = pid
    · subst h; simp [setLevel, qtyOf, lookupLevel]
    · have h2 : ¬(pid = pid') := fun hh => h hh.symm
      simp [setLevel, qtyOf, lookupLevel, h, h2]
  | cons r rest ih =>
    by_cases hc : r.productId = pid ∧ r.warehouseId = wid
    · by_cases h : pid' = pid
      · subst h
        simp [setLevel, qtyOf, lookupLevel, hc, hc.1, hc.2]
      · have hne : ¬(r.productId = pid' ∧ r.warehouseId = wid) :=
          fun hh => h (by rw [← hh.1, hc.1])
        have h2 : ¬(pid = pid') := fun hh => h hh.symm
        simp [setLevel, qtyOf, lookupLevel, hc, hne, h, h2]
    · by_cases hr : r.productId = pid' ∧ r.warehouseId = wid
      · have h : ¬(pid' = pid) := fun hh => hc ⟨by rw [hr.1, hh], hr.2⟩
        simp [setLevel, qtyOf, lookupLevel, hc, hr, h]
      · simp only [setLevel, if_neg hc]
        simp only [qtyOf, lookupLevel, if_neg hr]
        exact ih

theorem qtyOf_setLevel_abs (l : List InvRecord) (pid wid : Nat) (q : Int) :
    qtyOf (setLevel l pid wid q true) pid wid = q := by
  induction l with
  | nil => simp [setLevel, qtyOf, lookupLevel]
  | cons r rest ih =>
    by_cases hc : r.productId = pid ∧ r.warehouseId = wid
    · simp [setLevel, qtyOf, lookupLevel, hc, hc.1, hc.2]
    · simp only [setLevel, if_neg hc]
      simp only [qtyOf, lookupLevel, if_neg hc]
      exact ih

theorem lookupAccount_setBalance_same (l : List Account) (aid : Nat) (b : Int) :
    lookupAccount (setBalance l aid b) aid =
      (lookupAccount l aid).map (fun a => { a with currentBalance := b }) := by
  induction l with
  | nil => simp [setBalance, lookupAccount]
  | cons a rest ih =>
    by_cases hc : a.id = aid
    · simp [setBalance, lookupAccount, hc]
    · simp [setBalance, lookupAccount, hc, ih]

theorem updateInventory_ok_eq {st : MockState} {pid wid : Nat} {q : Int} {b : Bool}
    {st' : MockState} (h : updateInventory st pid wid q b = Except.ok st') :
    st' = { st with inventory := setLevel st.inventory pid wid q b } := by
  unfold updateInventory at h
  cases hp : lookupProduct st.products pid <;> rw [hp] at h <;>
    cases hw : lookupWarehouse st.warehouses wid <;> rw [hw] at h <;> simp_all

theorem applyDetails_frame (isP isS : Bool) (wid : Nat) (ds : List InvoiceDetail) :
    ∀ (st : MockState) (cogs : Int),
      (applyDetails isP isS wid st cogs ds).1.products = st.products ∧
      (applyDetails isP isS wid st cogs ds).1.warehouses = st.warehouses ∧
      (applyDetails isP isS wid st cogs ds).1.accounts = st.accounts ∧
      (applyDetails isP isS wid st cogs ds).1.transactions = st.transactions ∧
      (applyDetails isP isS wid st cogs ds).1.invoices = st.invoices ∧
      (applyDetails isP isS wid st cogs ds).1.invMoves = st.invMoves := by
  induction ds with
  | nil => intro st cogs; simp [applyDetails]
  | cons d ds ih =>
    intro st cogs
    by_cases hg : d.productId ≠ 0 ∧ d.quantity ≠ 0
    · simp only [applyDetails, if_pos hg]
      cases hu : updateInventory st d.productId wid
          (if isP then d.quantity else -d.quantity) false with
      | error e => simp [hu]
      | ok st' =>
        have he := updateInventory_ok_eq hu
        subst he
        simpa using ih _ _
    · simp only [applyDetails, if_neg hg]
      exact ih st cogs

theorem applyDetails_level (isP isS : Bool) (wid : Nat) (ds : List InvoiceDetail) :
    ∀ (st : MockState) (cogs : Int) (pid : Nat),
      (applyDetails isP isS wid st cogs ds).2.2 = false →
      getStockLevel (applyDetails isP isS wid st cogs ds).1 pid wid =
        getStockLevel st pid wid + detailsDelta isP pid ds := by
  induction ds with
  | nil => intro st cogs pid _; simp [applyDetails, detailsDelta]
  | cons d ds ih =>
    intro st cogs pid h
    by_cases hg : d.productId ≠ 0 ∧ d.quantity ≠ 0
    · simp only [applyDetails, if_pos hg] at h ⊢
      cases hu : updateInventory st d.productId wid
          (if isP then d.quantity else -d.quantity) false with
      | error e => simp [hu] at h
      | ok st' =>
        simp only [hu] at h ⊢
        have he := updateInventory_ok_eq hu
        subst he
        rw [ih _ _ pid h]
        by_cases hp : pid = d.productId
        · have hcond : d.productId ≠ 0 ∧ d.quantity ≠ 0 ∧ d.productId = pid :=
            ⟨hg.1, hg.2, hp.symm⟩
          simp only [getStockLevel, detailsDelta, if_pos hcond, qtyOf_setLevel_rel,
            if_pos hp]
          ring
        · have hcond : ¬(d.productId ≠ 0 ∧ d.quantity ≠ 0 ∧ d.productId = pid) :=
            fun hh => hp hh.2.2.symm
          simp only [getStockLevel, detailsDelta, if_neg hcond, qtyOf_setLevel_rel,
            if_neg hp]
          ring
    · simp only [applyDetails, if_neg hg] at h ⊢
      rw [ih st cogs pid h, detailsDelta]
      have hcond : ¬(d.productId ≠ 0 ∧ d.quantity ≠ 0 ∧ d.productId = pid) :=
        fun hh => hg ⟨hh.1, hh.2.1⟩
      simp only [if_neg hcond]
      ring

theorem applyDetails_cogs (wid : Nat) (ds : List InvoiceDetail) :
    ∀ (st : MockState) (cogs : Int),
      (applyDetails false true wid st cogs ds).2.2 = false →
      (applyDetails false true wid st cogs ds).2.1 = cogs + cogsSum st.products ds := by
  induction ds with
  | nil => intro st cogs _; simp [applyDetails, cogsSum]
  | cons d ds ih =>
    intro st cogs h
    by_cases hg : d.productId ≠ 0 ∧ d.quantity ≠ 0
    · simp only [applyDetails, if_pos hg] at h ⊢
      simp at h ⊢
      cases hu : updateInventory st d.productId wid (-d.quantity) false with
      | error e => simp [hu] at h
      | ok st' =>
        simp only [hu] at h ⊢
        have he := updateInventory_ok_eq hu
        subst he
        cases hl : lookupProduct st.products d.productId with
        | none =>
          try simp only [hl] at h ⊢
          rw [ih _ _ h]
          simp [cogsSum, hg, hl]
        | some p =>
          try simp only [hl] at h ⊢
          rw [ih _ _ h]
          simp [cogsSum, hg, hl]
          try ring
    · simp only [applyDetails, if_neg hg] at h ⊢
      rw [ih st cogs h]
      have hcond : ¬(d.productId ≠ 0 ∧ d.quantity ≠ 0) := hg
      simp only [cogsSum, if_neg hcond]
      ring

theorem applyBalanceUpdate_frame (isP : Bool) (aid : Nat) (total : Int) (st : MockState) :
    (applyBalanceUpdate isP aid total st).inventory = st.inventory ∧
    (applyBalanceUpdate isP aid total st).transactions = st.transactions ∧
    (applyBalanceUpdate isP aid total st).invMoves = st.invMoves ∧
    (applyBalanceUpdate isP aid total st).invoices = st.invoices ∧
    (applyBalanceUpdate isP aid total st).products = st.products ∧
    (applyBalanceUpdate isP aid total st).warehouses = st.warehouses := by
  unfold applyBalanceUpdate
  by_cases h : aid ≠ 0
  · simp only [if_pos h]
    cases lookupAccount st.accounts aid <;> simp
  · simp [h]

theorem applyBalanceUpdate_balance (isP : Bool) (aid : Nat) (total : Int) (st : MockState)
    (a : Account) (h0 : aid ≠ 0) (ha : lookupAccount st.accounts aid = some a) :
    getAccountBalance (applyBalanceUpdate isP aid total st) aid =
      if isP then a.currentBalance - total else a.currentBalance + total := by
  unfold applyBalanceUpdate
  simp only [if_pos h0, ha]
  unfold getAccountBalance
  simp [lookupAccount_setBalance_same, ha]

theorem inv_not_pur (s : List Char) (h : strStartsWith s invCode = true) :
    strStartsWith s purCode = false := by
  cases s with
  | nil => simp [strStartsWith, invCode] at h
  | cons c rest =>
    simp [strStartsWith, invCode] at h
    simp [strStartsWith, purCode, h.1]

theorem pur_not_inv (s : List Char) (h : strStartsWith s purCode = true) :
    strStartsWith s invCode = false := by
  cases s with
  | nil => simp [strStartsWith, purCode] at h
  | cons c rest =>
    simp [strStartsWith, purCode] at h
    simp [strStartsWith, invCode, h.1]

theorem postInvoice_posted (st : MockState) (newId : Nat) (inv : Invoice)
    (ds : List InvoiceDetail) (hstatus : inv.status = "posted") :
    postInvoice st newId inv (some ds) =
      runPosting { inv with id := newId }
        { st with invoices := st.invoices ++ [{ inv with id := newId }] } ds := by
  simp [postInvoice, hstatus]

theorem runPosting_purchase (ni : Invoice) (st1 : MockState) (ds : List InvoiceDetail)
    (hpur : strStartsWith ni.invoiceNumber purCode = true)
    (hok : (runPosting ni st1 ds).2.isOk = true) :
    (applyDetails true (strStartsWith ni.invoiceNumber invCode)
        ni.warehouseId st1 0 ds).2.2 = false ∧
    runPosting ni st1 ds =
      (applyBalanceUpdate true ni.accountId ni.total
        { (applyDetails true (strStartsWith ni.invoiceNumber invCode)
             ni.warehouseId st1 0 ds).1 with
          transactions :=
            (applyDetails true (strStartsWith ni.invoiceNumber invCode)
               ni.warehouseId st1 0 ds).1.transactions
              ++ purchaseEntries ni.invoiceNumber ni.accountId ni.total },
       PostResult.created ni) := by
  unfold runPosting at hok ⊢
  rw [hpur] at hok ⊢
  simp only [Bool.true_or, if_pos rfl] at hok ⊢
  by_cases hf : (applyDetails true (strStartsWith ni.invoiceNumber invCode)
      ni.warehouseId st1 0 ds).2.2 = true
  · rw [if_pos hf] at hok
    simp [PostResult.isOk] at hok
  · rw [if_neg hf] at hok ⊢
    refine ⟨by simpa using hf, ?_⟩
    rfl

theorem runPosting_sale (ni : Invoice) (st1 : MockState) (ds : List InvoiceDetail)
    (hinv : strStartsWith ni.invoiceNumber invCode = true)
    (hok : (runPosting ni st1 ds).2.isOk = true) :
    (applyDetails false true ni.warehouseId st1 0 ds).2.2 = false ∧
    runPosting ni st1 ds =
      (applyBalanceUpdate false ni.accountId ni.total
        { (applyDetails false true ni.warehouseId st1 0 ds).1 with
          transactions :=
            (applyDetails false true ni.warehouseId st1 0 ds).1.transactions
              ++ saleEntries ni.invoiceNumber ni.accountId ni.total
                   (applyDetails false true ni.warehouseId st1 0 ds).2.1 },
       PostResult.created ni) := by
  have hpur := inv_not_pur _ hinv
  unfold runPosting at hok ⊢
  rw [hinv, hpur] at hok ⊢
  simp only [Bool.or_true, if_pos rfl] at hok ⊢
  by_cases hf : (applyDetails false true ni.warehouseId st1 0 ds).2.2 = true
  · rw [if_pos hf] at hok
    simp [PostResult.isOk] at hok
  · rw [if_neg hf] at hok ⊢
    refine ⟨by simpa using hf, ?_⟩
    simp

theorem detailsDelta_of_none (isP : Bool) (P : Nat) (ds : List InvoiceDetail)
    (h : ds.filter (fun d => d.productId == P) = []) :
    detailsDelta isP P ds = 0 := by
  induction ds with
  | nil => simp [detailsDelta]
  | cons d ds ih =>
    rw [List.filter_cons] at h
    by_cases hd : d.productId = P
    · simp [hd] at h
    · have hc : ¬(d.productId ≠ 0 ∧ d.quantity ≠ 0 ∧ d.productId = P) :=
        fun hh => hd hh.2.2
      simp only [hd, if_neg, detailsDelta] at h ⊢
      simp [hc, ih (by simpa [hd] using h)]

theorem detailsDelta_of_unique (isP : Bool) (P : Nat) (Q : Int) (ds : List InvoiceDetail)
    (hP : P ≠ 0) (hQ : Q ≠ 0)
    (hline : (ds.filter (fun d => d.productId == P)).map (fun d => d.quantity) = [Q]) :
    detailsDelta isP P ds = if isP then Q else -Q := by
  induction ds with
  | nil => simp at hline
  | cons d ds ih =>
    rw [List.filter_cons] at hline
    by_cases hd : d.productId = P
    · simp only [hd, beq_self_eq_true, if_pos] at hline
      rw [List.map_cons] at hline
      have hQd : d.quantity = Q := (List.cons_eq_cons.mp hline).1
      have hrest : (ds.filter (fun d => d.productId == P)).map (fun d => d.quantity) = [] :=
        (List.cons_eq_cons.mp hline).2
      have hrest2 : ds.filter (fun d => d.productId == P) = [] :=
        List.map_eq_nil_iff.mp hrest
      have hc : d.productId ≠ 0 ∧ d.quantity ≠ 0 ∧ d.productId = P :=
        ⟨hd ▸ hP, hQd ▸ hQ, hd⟩
      rw [detailsDelta, if_pos hc, detailsDelta_of_none isP P ds hrest2, hQd]
      cases isP <;> simp
    · have hc : ¬(d.productId ≠ 0 ∧ d.quantity ≠ 0 ∧ d.productId = P) :=
        fun hh => hd hh.2.2
      rw [detailsDelta, if_neg hc]
      have : (d.productId == P) = false := by simpa using hd
      rw [this] at hline
      simp only [Bool.false_eq_true, if_false] at hline
      rw [ih hline]
      ring

theorem getStockLevel_applyBalanceUpdate (isP : Bool) (aid : Nat) (t : Int)
    (s : MockState) (pid wid : Nat) :
    getStockLevel (applyBalanceUpdate isP aid t s) pid wid = getStockLevel s pid wid := by
  unfold getStockLevel
  rw [(applyBalanceUpdate_frame isP aid t s).1]

theorem postInvoice_purchase_out
    (st : MockState) (newId : Nat) (inv : Invoice) (ds : List InvoiceDetail)
    (hstatus : inv.status = "posted")
    (hpur : strStartsWith inv.invoiceNumber purCode = true)
    (hok : (postInvoice st newId inv (some ds)).2.isOk = true) :
    (postInvoice st newId inv (some ds)).1.transactions =
      st.transactions ++ purchaseEntries inv.invoiceNumber inv.accountId inv.total ∧
    (∀ (a : Account), inv.accountId ≠ 0 →
      lookupAccount st.accounts inv.accountId = some a →
      getAccountBalance (postInvoice st newId inv (some ds)).1 inv.accountId =
        a.currentBalance - inv.total) := by
  rw [postInvoice_posted st newId inv ds hstatus] at hok ⊢
  obtain ⟨hfail, heq⟩ := runPosting_purchase { inv with id := newId }
    { st with invoices := st.invoices ++ [{ inv with id := newId }] } ds hpur hok
  rw [heq]
  constructor
  · refine Eq.trans (applyBalanceUpdate_frame _ _ _ _).2.1 ?_
    exact congrArg
      (fun l => l ++ purchaseEntries inv.invoiceNumber inv.accountId inv.total)
      ((applyDetails_frame _ _ _ _ _ _).2.2.2.1)
  · intro a haid ha
    have hacc : lookupAccount
        ({ (applyDetails true
              (strStartsWith ({ inv with id := newId } : Invoice).invoiceNumber invCode)
              ({ inv with id := newId } : Invoice).warehouseId
              { st with invoices := st.invoices ++ [{ inv with id := newId }] } 0 ds).1 with
            transactions :=
              (applyDetails true
                (strStartsWith ({ inv with id := newId } : Invoice).invoiceNumber invCode)
                ({ inv with id := newId } : Invoice).warehouseId
                { st with invoices := st.invoices ++ [{ inv with id := newId }] } 0 ds).1.transactions
                ++ purchaseEntries ({ inv with id := newId } : Invoice).invoiceNumber
                     ({ inv with id := newId } : Invoice).accountId
                     ({ inv with id := newId } : Invoice).total } : MockState).accounts
        inv.accountId = some a := by
      refine Eq.trans (congrArg (fun l => lookupAccount l inv.accountId)
        ((applyDetails_frame _ _ _ _ _ _).2.2.1)) ha
    exact Eq.trans
      (applyBalanceUpdate_balance true inv.accountId inv.total _ a haid hacc)
      (if_pos rfl)

theorem postInvoice_sale_out
    (st : MockState) (newId : Nat) (inv : Invoice) (ds : List InvoiceDetail)
    (hstatus : inv.status = "posted")
    (hinv : strStartsWith inv.invoiceNumber invCode = true)
    (hok : (postInvoice st newId inv (some ds)).2.isOk = true) :
    (postInvoice st newId inv (some ds)).1.transactions =
      st.transactions ++ saleEntries inv.invoiceNumber inv.accountId inv.total
        (cogsSum st.products ds) ∧
    (∀ (a : Account), inv.accountId ≠ 0 →
      lookupAccount st.accounts inv.accountId = some a →
      getAccountBalance (postInvoice st newId inv (some ds)).1 inv.accountId =
        a.currentBalance + inv.total) := by
  rw [postInvoice_posted st newId inv ds hstatus] at hok ⊢
  obtain ⟨hfail, heq⟩ := runPosting_sale { inv with id := newId }
    { st with invoices := st.invoices ++ [{ inv with id := newId }] } ds hinv hok
  have hcogs := applyDetails_cogs _ ds _ 0 hfail
  have hcogs2 : (applyDetails false true
      ({ inv with id := newId } : Invoice).warehouseId
      { st with invoices := st.invoices ++ [{ inv with id := newId }] } 0 ds).2.1 =
      cogsSum st.products ds := by
    rw [hcogs]; exact zero_add _
  rw [heq]
  constructor
  · rw [hcogs2] at heq ⊢
    refine Eq.trans (applyBalanceUpdate_frame _ _ _ _).2.1 ?_
    exact congrArg
      (fun l => l ++ saleEntries inv.invoiceNumber inv.accountId inv.total
        (cogsSum st.products ds))
      ((applyDetails_frame _ _ _ _ _ _).2.2.2.1)
  · intro a haid ha
    have hacc : lookupAccount
        ({ (applyDetails false true
              ({ inv with id := newId } : Invoice).warehouseId
              { st with invoices := st.invoices ++ [{ inv with id := newId }] } 0 ds).1 with
            transactions :=
              (applyDetails false true
                ({ inv with id := newId } : Invoice).warehouseId
                { st with invoices := st.invoices ++ [{ inv with id := newId }] } 0 ds).1.transactions
                ++ saleEntries ({ inv with id := newId } : Invoice).invoiceNumber
                     ({ inv with id := newId } : Invoice).accountId
                     ({ inv with id := newId } : Invoice).total
                     (applyDetails false true
                       ({ inv with id := newId } : Invoice).warehouseId
                       { st with invoices := st.invoices ++ [{ inv with id := newId }] } 0 ds).2.1 } : MockState).accounts
        inv.accountId = some a := by
      refine Eq.trans (congrArg (fun l => lookupAccount l inv.accountId)
        ((applyDetails_frame _ _ _ _ _ _).2.2.1)) ha
    exact Eq.trans
      (applyBalanceUpdate_balance false inv.accountId inv.total _ a haid hacc)
      (if_neg (by simp))

/-- C3 (stock conservation on posting): for a successfully posted purchase
document having exactly one line for product P, with quantity Q, the stock
level of (P, W) at the document warehouse W rises by exactly Q; for a
successfully posted sales document it falls by exactly Q. -/
theorem claim_C3_stock_conservation
    (st : MockState) (newId : Nat) (inv : Invoice) (ds : List InvoiceDetail)
    (P : Nat) (Q : Int)
    (hstatus : inv.status = "posted")
    (hP : P ≠ 0) (hQ : Q ≠ 0)
    (hline : (ds.filter (fun d => d.productId == P)).map (fun d => d.quantity) = [Q])
    (hok : (postInvoice st newId inv (some ds)).2.isOk = true) :
    (strStartsWith inv.invoiceNumber purCode = true →
      getStockLevel (postInvoice st newId inv (some ds)).1 P inv.warehouseId =
        getStockLevel st P inv.warehouseId + Q) ∧
    (strStartsWith inv.invoiceNumber invCode = true →
      getStockLevel (postInvoice st newId inv (some ds)).1 P inv.warehouseId =
        getStockLevel st P inv.warehouseId - Q) := by
  rw [postInvoice_posted st newId inv ds hstatus] at hok ⊢
  constructor
  · intro hpur
    obtain ⟨hfail, heq⟩ := runPosting_purchase { inv with id := newId }
      { st with invoices := st.invoices ++ [{ inv with id := newId }] } ds hpur hok
    rw [heq]
    rw [getStockLevel_applyBalanceUpdate]
    have hlev := applyDetails_level true
      (strStartsWith ({ inv with id := newId } : Invoice).invoiceNumber invCode)
      ({ inv with id := newId } : Invoice).warehouseId ds
      { st with invoices := st.invoices ++ [{ inv with id := newId }] } 0 P hfail
    have hdelta := detailsDelta_of_unique true P Q ds hP hQ hline
    rw [if_pos rfl] at hdelta
    calc getStockLevel ({ (applyDetails true
            (strStartsWith ({ inv with id := newId } : Invoice).invoiceNumber invCode)
            ({ inv with id := newId } : Invoice).warehouseId
            { st with invoices := st.invoices ++ [{ inv with id := newId }] } 0 ds).1 with
          transactions :=
            (applyDetails true
              (strStartsWith ({ inv with id := newId } : Invoice).invoiceNumber invCode)
              ({ inv with id := newId } : Invoice).warehouseId
              { st with invoices := st.invoices ++ [{ inv with id := newId }] } 0 ds).1.transactions
              ++ purchaseEntries ({ inv with id := newId } : Invoice).invoiceNumber
                   ({ inv with id := newId } : Invoice).accountId
                   ({ inv with id := newId } : Invoice).total } : MockState)
          P inv.warehouseId
        = getStockLevel (applyDetails true
            (strStartsWith ({ inv with id := newId } : Invoice).invoiceNumber invCode)
            ({ inv with id := newId } : Invoice).warehouseId
            { st with invoices := st.invoices ++ [{ inv with id := newId }] } 0 ds).1
            P inv.warehouseId := rfl
      _ = getStockLevel st P inv.warehouseId + detailsDelta true P ds := hlev
      _ = getStockLevel st P inv.warehouseId + Q := by rw [hdelta]
  · intro hinv
    obtain ⟨hfail, heq⟩ := runPosting_sale { inv with id := newId }
      { st with invoices := st.invoices ++ [{ inv with id := newId }] } ds hinv hok
    rw [heq]
    rw [getStockLevel_applyBalanceUpdate]
    have hlev := applyDetails_level false true
      ({ inv with id := newId } : Invoice).warehouseId ds
      { st with invoices := st.invoices ++ [{ inv with id := newId }] } 0 P hfail
    have hdelta := detailsDelta_of_unique false P Q ds hP hQ hline
    simp only [Bool.false_eq_true, if_false] at hdelta
    have : getStockLevel ({ (applyDetails false true
            ({ inv with id := newId } : Invoice).warehouseId
            { st with invoices := st.invoices ++ [{ inv with id := newId }] } 0 ds).1 with
          transactions :=
            (applyDetails false true
              ({ inv with id := newId } : Invoice).warehouseId
              { st with invoices := st.invoices ++ [{ inv with id := newId }] } 0 ds).1.transactions
              ++ saleEntries ({ inv with id := newId } : Invoice).invoiceNumber
                   ({ inv with id := newId } : Invoice).accountId
                   ({ inv with id := newId } : Invoice).total
                   (applyDetails false true
                     ({ inv with id := newId } : Invoice).warehouseId
                     { st with invoices := st.invoices ++ [{ inv with id := newId }] } 0 ds).2.1 } : MockState)
          P inv.warehouseId
        = getStockLevel st P inv.warehouseId + detailsDelta false P ds := hlev
    rw [this, hdelta]
    ring

/-- C3 witness: the spec section 8 purchase scenario: posting PUR-1 with
the single line (product 7, qty 10) on the supplier sample state raises the
stock level of (7, 1) from 0 to 10. -/
theorem claim_C3_stock_conservation_witness :
    samplePurchase.status = "posted" ∧ (7 : Nat) ≠ 0 ∧ (10 : Int) ≠ 0 ∧
    (([⟨7, 10, 5, 50⟩] : List InvoiceDetail).filter
        (fun d => d.productId == 7)).map (fun d => d.quantity) = [10] ∧
    (postInvoice supplierState 3 samplePurchase
        (some [⟨7, 10, 5, 50⟩])).2.isOk = true ∧
    getStockLevel (postInvoice supplierState 3 samplePurchase
        (some [⟨7, 10, 5, 50⟩])).1 7 samplePurchase.warehouseId =
      getStockLevel supplierState 7 samplePurchase.warehouseId + 10 :=
  ⟨by decide, by decide, by decide, by decide, by decide,
   (claim_C3_stock_conservation supplierState 3 samplePurchase [⟨7, 10, 5, 50⟩] 7 10
     (by decide) (by decide) (by decide) (by decide) (by decide)).1 (by decide)⟩

/-- C4 (double-entry journal balance): a successfully posted purchase
document of total T appends exactly the two journal entries (debit
Inventory account 3 for T, credit the supplier account for T), and a
successfully posted sales document appends exactly the four journal
entries (debit customer for T, credit Sales Revenue 5 for T, debit COGS 6
for the cost of goods sold, credit Inventory 3 for the cost of goods
sold); in both cases the debit amounts sum to the credit amounts. -/
theorem claim_C4_journal_entries
    (st : MockState) (newId : Nat) (inv : Invoice) (ds : List InvoiceDetail)
    (hstatus : inv.status = "posted")
    (hok : (postInvoice st newId inv (some ds)).2.isOk = true) :
    (strStartsWith inv.invoiceNumber purCode = true →
      (postInvoice st newId inv (some ds)).1.transactions =
        st.transactions ++ purchaseEntries inv.invoiceNumber inv.accountId inv.total ∧
      debitTotal (purchaseEntries inv.invoiceNumber inv.accountId inv.total) =
        creditTotal (purchaseEntries inv.invoiceNumber inv.accountId inv.total)) ∧
    (strStartsWith inv.invoiceNumber invCode = true →
      (postInvoice st newId inv (some ds)).1.transactions =
        st.transactions ++ saleEntries inv.invoiceNumber inv.accountId inv.total
          (cogsSum st.products ds) ∧
      debitTotal (saleEntries inv.invoiceNumber inv.accountId inv.total
          (cogsSum st.products ds)) =
        creditTotal (saleEntries inv.invoiceNumber inv.accountId inv.total
          (cogsSum st.products ds))) := by
  constructor
  · intro hpur
    refine ⟨(postInvoice_purchase_out st newId inv ds hstatus hpur hok).1, ?_⟩
    simp [purchaseEntries, debitTotal, creditTotal]
  · intro hinv
    refine ⟨(postInvoice_sale_out st newId inv ds hstatus hinv hok).1, ?_⟩
    simp [saleEntries, debitTotal, creditTotal]

/-- C4 witness: the spec section 8 purchase scenario PUR-1 (product 7, qty
10, unit cost 5, supplier 50) appends exactly the two journal entries of
amount 50. -/
theorem claim_C4_journal_entries_witness :
    samplePurchase.status = "posted" ∧
    (postInvoice supplierState 3 samplePurchase
        (some [⟨7, 10, 5, 50⟩])).2.isOk = true ∧
    ((postInvoice supplierState 3 samplePurchase (some [⟨7, 10, 5, 50⟩])).1.transactions =
        supplierState.transactions ++
          purchaseEntries samplePurchase.invoiceNumber samplePurchase.accountId
            samplePurchase.total ∧
      debitTotal (purchaseEntries samplePurchase.invoiceNumber samplePurchase.accountId
          samplePurchase.total) =
        creditTotal (purchaseEntries samplePurchase.invoiceNumber samplePurchase.accountId
          samplePurchase.total)) :=
  ⟨by decide, by decide,
   (claim_C4_journal_entries supplierState 3 samplePurchase [⟨7, 10, 5, 50⟩]
     (by decide) (by decide)).1 (by decide)⟩

/-- C5 (balance conservation on posting): a successfully posted sales
document of total T raises the balance of its customer account by exactly
T; a successfully posted purchase document of total T lowers the balance
of its supplier account by exactly T. -/
theorem claim_C5_balance_conservation
    (st : MockState) (newId : Nat) (inv : Invoice) (ds : List InvoiceDetail) (a : Account)
    (hstatus : inv.status = "posted")
    (haid : inv.accountId ≠ 0)
    (ha : lookupAccount st.accounts inv.accountId = some a)
    (hok : (postInvoice st newId inv (some ds)).2.isOk = true) :
    (strStartsWith inv.invoiceNumber invCode = true → a.type = "customer" →
      getAccountBalance (postInvoice st newId inv (some ds)).1 inv.accountId =
        getAccountBalance st inv.accountId + inv.total) ∧
    (strStartsWith inv.invoiceNumber purCode = true → a.type = "supplier" →
      getAccountBalance (postInvoice st newId inv (some ds)).1 inv.accountId =
        getAccountBalance st inv.accountId - inv.total) := by
  have hbal : getAccountBalance st inv.accountId = a.currentBalance := by
    unfold getAccountBalance; rw [ha]
  constructor
  · intro hinv _
    rw [hbal]
    exact (postInvoice_sale_out st newId inv ds hstatus hinv hok).2 a haid ha
  · intro hpur _
    rw [hbal]
    exact (postInvoice_purchase_out st newId inv ds hstatus hpur hok).2 a haid ha

/-- C5 witness: posting the sample sale INV-1 of total 40 to customer 60
raises the customer balance from 0 to 40; an auxiliary purchase posting
lowers supplier 50 by its total 50. -/
theorem claim_C5_balance_conservation_witness :
    sampleSale.status = "posted" ∧ sampleSale.accountId ≠ 0 ∧
    lookupAccount sampleState.accounts sampleSale.accountId =
      some ⟨60, "customer", 0⟩ ∧
    (postInvoice sampleState 7 sampleSale (some oneLine)).2.isOk = true ∧
    getAccountBalance (postInvoice sampleState 7 sampleSale (some oneLine)).1
        sampleSale.accountId =
      getAccountBalance sampleState sampleSale.accountId + sampleSale.total :=
  ⟨by decide, by decide, by decide, by decide,
   (claim_C5_balance_conservation sampleState 7 sampleSale oneLine ⟨60, "customer", 0⟩
     (by decide) (by decide) (by decide) (by decide)).1 (by decide) (by decide)⟩

/-- C1 (atomicity, refuted): posting the sample sale whose second line
references the unknown product 99 fails with a 500, yet the stock level of
product 1 at warehouse 1 has already dropped from 10 to 8 and is not
rolled back — the failed post leaves a partially applied stock movement
behind. -/
theorem claim_C1_failed_post_keeps_partial_stock :
    (postInvoice sampleState 7 sampleSale (some mixedDetails)).2 =
      PostResult.serverError ∧
    getStockLevel (postInvoice sampleState 7 sampleSale (some mixedDetails)).1 1 1 = 8 ∧
    getStockLevel sampleState 1 1 = 10 := by
  refine ⟨?_, ?_, ?_⟩ <;> decide

/-- C2 counterexample: after successfully posting the sample sale, a
second posting attempt through the status route succeeds with a 200
response instead of being rejected with AlreadyPostedError (no such
rejection exists anywhere in the code); the state is untouched. -/
theorem claim_C2_second_post_succeeds :
    (patchInvoiceStatus postedOnceState 7 "posted").2 =
      PatchResult.okResp { sampleSale with id := 7 } ∧
    (patchInvoiceStatus postedOnceState 7 "posted").1 = postedOnceState := by
  refine ⟨?_, ?_⟩ <;> decide

/-- C2 (corrected): the status route performs no ledger mutation at all
and no posted-state check: for an existing invoice and a truthy status it
answers success, and stock levels, account balances, the transaction log
and the movement log are all exactly as before the call — so ledger state
after a second posting attempt equals the state after the first, but the
attempt is not rejected. -/
theorem claim_C2_status_route_no_guard (st : MockState) (iid : Nat) (s : String)
    (i : Invoice) (hs : s ≠ "") (hf : findInvoice st.invoices iid = some i) :
    (patchInvoiceStatus st iid s).2 = PatchResult.okResp { i with status := s } ∧
    (patchInvoiceStatus st iid s).1.inventory = st.inventory ∧
    (patchInvoiceStatus st iid s).1.accounts = st.accounts ∧
    (patchInvoiceStatus st iid s).1.transactions = st.transactions ∧
    (patchInvoiceStatus st iid s).1.invMoves = st.invMoves := by
  unfold patchInvoiceStatus
  simp [hs, hf]

/-- C2 witness: the second posting attempt on the already posted sample
sale invoice 7 succeeds and leaves the ledger unchanged. -/
theorem claim_C2_status_route_no_guard_witness :
    ("posted" : String) ≠ "" ∧
    findInvoice postedOnceState.invoices 7 = some { sampleSale with id := 7 } ∧
    ((patchInvoiceStatus postedOnceState 7 "posted").2 =
        PatchResult.okResp { sampleSale with id := 7, status := "posted" } ∧
      (patchInvoiceStatus postedOnceState 7 "posted").1.inventory =
        postedOnceState.inventory ∧
      (patchInvoiceStatus postedOnceState 7 "posted").1.accounts =
        postedOnceState.accounts ∧
      (patchInvoiceStatus postedOnceState 7 "posted").1.transactions =
        postedOnceState.transactions ∧
      (patchInvoiceStatus postedOnceState 7 "posted").1.invMoves =
        postedOnceState.invMoves) :=
  ⟨by decide, by decide,
   claim_C2_status_route_no_guard postedOnceState 7 "posted" { sampleSale with id := 7 }
     (by decide) (by decide)⟩

/-- C6 (fixed sign policy of the cash-transaction route): for a positive
amount on an existing account, credit lowers a customer balance and raises
a supplier balance by the amount; debit raises a customer balance and
lowers a supplier balance by the amount. -/
theorem claim_C6_sign_policy (st : MockState) (aid : Nat) (amount : Int) (a : Account)
    (h0 : aid ≠ 0) (hpos : 0 < amount)
    (ha : lookupAccount st.accounts aid = some a) :
    (a.type = "customer" →
      getAccountBalance (postTransaction st "credit" aid amount).1 aid =
        getAccountBalance st aid - amount ∧
      getAccountBalance (postTransaction st "debit" aid amount).1 aid =
        getAccountBalance st aid + amount) ∧
    (a.type = "supplier" →
      getAccountBalance (postTransaction st "credit" aid amount).1 aid =
        getAccountBalance st aid + amount ∧
      getAccountBalance (postTransaction st "debit" aid amount).1 aid =
        getAccountBalance st aid - amount) := by
  have hne : amount ≠ 0 := ne_of_gt hpos
  have hnle : ¬(amount ≤ 0) := not_le.mpr hpos
  have hbal : getAccountBalance st aid = a.currentBalance := by
    unfold getAccountBalance; rw [ha]
  refine ⟨fun ht => ⟨?_, ?_⟩, fun ht => ⟨?_, ?_⟩⟩ <;>
    simp [postTransaction, createMockTransaction, h0, hne, hnle, ha, ht,
      getAccountBalance, lookupAccount_setBalance_same, hbal]

/-- C6 witness: on the two-account sample state (both balances 100, amount
30), credit takes customer 60 to 70, debit takes it to 130; credit takes
supplier 50 to 130, debit takes it to 70. -/
theorem claim_C6_sign_policy_witness :
    (60 : Nat) ≠ 0 ∧ (0 : Int) < 30 ∧
    lookupAccount twoAccountState.accounts 60 = some ⟨60, "customer", 100⟩ ∧
    (getAccountBalance (postTransaction twoAccountState "credit" 60 30).1 60 =
        getAccountBalance twoAccountState 60 - 30 ∧
      getAccountBalance (postTransaction twoAccountState "debit" 60 30).1 60 =
        getAccountBalance twoAccountState 60 + 30) :=
  ⟨by decide, by decide, by decide,
   (claim_C6_sign_policy twoAccountState 60 30 ⟨60, "customer", 100⟩
     (by decide) (by decide) (by decide)).1 (by decide)⟩

/-- C7 (setAbsolute logging, refuted on the mock path): a count request
setting (1, 1) from 5 to 7 does set the level to exactly 7 on both paths,
and the real-database path logs the delta 2; but the mock path logs the
movement with the absolute value 7, not the delta 2 — contradicting the
claim that the logged quantity is never the absolute value. -/
theorem claim_C7_count_logs_absolute :
    getStockLevel countState 1 1 = 5 ∧
    getStockLevel (postInventoryMock countState 1 1 7 true).1 1 1 = 7 ∧
    (postInventoryMock countState 1 1 7 true).1.invMoves =
      [⟨1, 1, 7, "adjustment"⟩] ∧
    getStockLevel (postInventoryCountReal countState 1 1 7).1 1 1 = 7 ∧
    (postInventoryCountReal countState 1 1 7).1.invMoves =
      [⟨1, 1, 2, "adjustment"⟩] ∧
    (7 : Int) ≠ 7 - 5 := by
  refine ⟨?_, ?_, ?_, ?_, ?_, ?_⟩ <;> decide

/-- C8 counterexample: on the empty state, querying the stock level of a
pair with no record answers 404 not-found, not quantity 0. -/
theorem claim_C8_missing_record_404 :
    getInventoryRoute emptyState 1 1 = StockLevelResp.notFoundResp := by
  decide

/-- C8 (corrected): whenever no stock record exists for (productId,
warehouseId), the stock-level route fails with the 404 not-found response
instead of succeeding with quantity 0. -/
theorem claim_C8_no_record_not_found (st : MockState) (pid wid : Nat)
    (h : lookupLevel st.inventory pid wid = none) :
    getInventoryRoute st pid wid = StockLevelResp.notFoundResp := by
  unfold getInventoryRoute
  rw [h]

/-- C8 witness: the pair (2, 3) has no record in the count sample state,
and the route answers 404 for it. -/
theorem claim_C8_no_record_not_found_witness :
    lookupLevel countState.inventory 2 3 = none ∧
    getInventoryRoute countState 2 3 = StockLevelResp.notFoundResp :=
  ⟨by decide, claim_C8_no_record_not_found countState 2 3 (by decide)⟩

/-- C9 (sales classification mismatch): the invoice listing's sales filter
keeps exactly the invoices whose number does not start with PUR-, the
sales report keeps exactly those whose number starts with INV-, an invoice
carrying neither marker is kept by the listing but dropped by the report,
and the two classifications agree precisely on the invoices carrying one
of the two markers. -/
theorem claim_C9_sales_classification (invs : List Invoice) (inv : Invoice) :
    (inv ∈ listSalesFilter invs ↔
      inv ∈ invs ∧ strStartsWith inv.invoiceNumber purCode = false) ∧
    (inv ∈ reportSalesFilter invs ↔
      inv ∈ invs ∧ strStartsWith inv.invoiceNumber invCode = true) ∧
    (strStartsWith inv.invoiceNumber purCode = false →
      strStartsWith inv.invoiceNumber invCode = false →
      inv ∈ invs →
      inv ∈ listSalesFilter invs ∧ inv ∉ reportSalesFilter invs) ∧
    ((!strStartsWith inv.invoiceNumber purCode) = strStartsWith inv.invoiceNumber invCode ↔
      (strStartsWith inv.invoiceNumber invCode = true ∨
        strStartsWith inv.invoiceNumber purCode = true)) := by
  have h1 : inv ∈ listSalesFilter invs ↔
      inv ∈ invs ∧ strStartsWith inv.invoiceNumber purCode = false := by
    simp [listSalesFilter, List.mem_filter]
  have h2 : inv ∈ reportSalesFilter invs ↔
      inv ∈ invs ∧ strStartsWith inv.invoiceNumber invCode = true := by
    simp [reportSalesFilter, List.mem_filter]
  refine ⟨h1, h2, ?_, ?_⟩
  · intro hp hi hmem
    refine ⟨h1.mpr ⟨hmem, hp⟩, fun hrep => ?_⟩
    rw [(h2.mp hrep).2] at hi
    cases hi
  · cases hi : strStartsWith inv.invoiceNumber invCode with
    | true =>
      have hp := inv_not_pur _ hi
      simp [hp]
    | false =>
      cases hp : strStartsWith inv.invoiceNumber purCode with
      | true => simp
      | false => simp

/-- C9 witness: concrete instance of the classification statement for an
invoice numbered X-1, carrying neither marker, listed alone. -/
theorem claim_C9_sales_classification_witness :
    (⟨1, ['X', '-', '1'], 0, 0, "draft", 0⟩ : Invoice) ∈
        listSalesFilter [⟨1, ['X', '-', '1'], 0, 0, "draft", 0⟩] ∧
    (⟨1, ['X', '-', '1'], 0, 0, "draft", 0⟩ : Invoice) ∉
        reportSalesFilter [⟨1, ['X', '-', '1'], 0, 0, "draft", 0⟩] :=
  (claim_C9_sales_classification [⟨1, ['X', '-', '1'], 0, 0, "draft", 0⟩]
      ⟨1, ['X', '-', '1'], 0, 0, "draft", 0⟩).2.2.1
    (by decide) (by decide) (by decide)

/-- C10 (draft creation is side-effect free): creating an invoice whose
status is not posted, or one without a details array, records the invoice
itself and leaves stock levels, account balances, the transaction log and
the movement log unchanged; equivalently, the posting side effects require
status posted together with a details array. -/
theorem claim_C10_draft_frame (st : MockState) (newId : Nat) (inv : Invoice)
    (details : Option (List InvoiceDetail))
    (h : inv.status ≠ "posted" ∨ details = none) :
    (postInvoice st newId inv details).1.inventory = st.inventory ∧
    (postInvoice st newId inv details).1.accounts = st.accounts ∧
    (postInvoice st newId inv details).1.transactions = st.transactions ∧
    (postInvoice st newId inv details).1.invMoves = st.invMoves ∧
    (postInvoice st newId inv details).1.invoices =
      st.invoices ++ [{ inv with id := newId }] ∧
    (postInvoice st newId inv details).2 =
      PostResult.created { inv with id := newId } := by
  cases details with
  | none => simp [postInvoice]
  | some ds =>
    cases h with
    | inl h => simp [postInvoice, h]
    | inr h => exact absurd h (by simp)

/-- C10 witness: creating the sample sale as a draft stores the invoice
and touches neither stock, balances, transactions nor movements. -/
theorem claim_C10_draft_frame_witness :
    (({ sampleSale with status := "draft" } : Invoice).status ≠ "posted" ∨
      (some oneLine : Option (List InvoiceDetail)) = none) ∧
    ((postInvoice sampleState 9 { sampleSale with status := "draft" }
        (some oneLine)).1.inventory = sampleState.inventory ∧
      (postInvoice sampleState 9 { sampleSale with status := "draft" }
        (some oneLine)).1.accounts = sampleState.accounts ∧
      (postInvoice sampleState 9 { sampleSale with status := "draft" }
        (some oneLine)).1.transactions = sampleState.transactions ∧
      (postInvoice sampleState 9 { sampleSale with status := "draft" }
        (some oneLine)).1.invMoves = sampleState.invMoves ∧
      (postInvoice sampleState 9 { sampleSale with status := "draft" }
        (some oneLine)).1.invoices =
        sampleState.invoices ++ [{ sampleSale with id := 9, status := "draft" }] ∧
      (postInvoice sampleState 9 { sampleSale with status := "draft" }
        (some oneLine)).2 =
        PostResult.created { sampleSale with id := 9, status := "draft" }) :=
  ⟨Or.inl (by decide),
   claim_C10_draft_frame sampleState 9 { sampleSale with status := "draft" }
     (some oneLine) (Or.inl (by decide))⟩

end SysInv
